import Mathlib

/-!
Verification development for the `mcp-azure-devops` repository.

This file shallowly embeds the formatting layer and the work-item tool
implementations of the repository (Python) into Lean and proves properties
of them.  Python objects that can carry optional attributes are modelled
with `Option` fields (`none` meaning the attribute is absent or `None`),
Python dictionaries are modelled as association lists with
first-occurrence lookup, and backing Azure DevOps API calls are modelled
as oracle results carried in a small environment structure, together with
an explicit trace of the calls a tool implementation issues.
-/

/-! ## Python value model -/

/-- A Python value as it occurs in a work-item field mapping: a plain
string scalar, an integer, a boolean, an SDK model object carrying
optional `display_name` / `unique_name` attributes (with its `str()`
rendering for the fallback case), or a plain string-to-string mapping.
`none` in an attribute slot means `hasattr` is false for it. -/
inductive PyValue where
  | str (s : String)
  | int (n : Int)
  | bool (b : Bool)
  | obj (display_name : Option String) (unique_name : Option String) (objRepr : String)
  | dict (entries : List (String × String))
  deriving Repr, DecidableEq

/-- Python `repr` of a string literal (used inside dict reprs).  Inner
escaping is not modelled; keys and values in scope here are plain. -/
def pyStrLit (s : String) : String := "\x27" ++ s ++ "\x27"

/-- Python `str()` of a string-keyed, string-valued dict. -/
def pyDictRepr (entries : List (String × String)) : String :=
  let item := fun (p : String × String) => pyStrLit p.1 ++ ": " ++ pyStrLit p.2
  "\x7b" ++ String.intercalate ", " (entries.map item) ++ "\x7d"

/-- Python `str()` of a `PyValue` (what an f-string interpolation shows). -/
def pyStr : PyValue → String
  | .str s => s
  | .int n => toString n
  | .bool b => if b then "True" else "False"
  | .obj _ _ r => r
  | .dict es => pyDictRepr es

/-- Python truthiness of a `PyValue`. -/
def pyTruthy : PyValue → Bool
  | .str s => s ≠ ""
  | .int n => n ≠ 0
  | .bool b => b
  | .obj _ _ _ => true
  | .dict es => es ≠ []

/-- Truthiness of an optional string attribute:
`hasattr(x, a) and x.a` with a string-valued attribute. -/
def optTruthy : Option String → Bool
  | some s => s ≠ ""
  | none => false

/-- Rendering of an optional string attribute value, `none` printing as
Python `None` does. -/
def pyOptReprStr : Option String → String
  | some s => s
  | none => "None"

/-- `d.get(k, default)` on a string-to-string dict (first occurrence). -/
def dictGetD (entries : List (String × String)) (key default : String) : String :=
  match entries.find? (fun p => p.1 = key) with
  | some p => p.2
  | none => default

/-- `k in d` on a string-to-string dict. -/
def dictHas (entries : List (String × String)) (key : String) : Bool :=
  (entries.find? (fun p => p.1 = key)).isSome

/-! ## Work-item field mappings -/

/-- A work item's `fields` mapping: fully-qualified reference name to
value, an open mapping (association list, first occurrence wins). -/
def Fields := List (String × PyValue)

/-- `fields.get(k)`: `some v` iff the key is present. -/
def fieldsGet (fields : Fields) (key : String) : Option PyValue :=
  match List.find? (fun p => p.1 = key) fields with
  | some p => some p.2
  | none => none

/-- `k in fields`. -/
def fieldsHas (fields : Fields) (key : String) : Bool :=
  (fieldsGet fields key).isSome

/-- `fields.get(k, default)`. -/
def fieldsGetD (fields : Fields) (key : String) (default : PyValue) : PyValue :=
  match fieldsGet fields key with
  | some v => v
  | none => default

/-! ## Work-item model objects -/

/-- The `_links` reference-links object of a work item.  `hasSelf` is
`hasattr(_links, "self")`; `html` is `some href` when the `html` link
exists and exposes an `href`. -/
structure ReferenceLinks where
  hasSelf : Bool
  html : Option String
  deriving Repr, DecidableEq

/-- A typed relation of a work item (`rel` kind, target `url`, and an
optional attributes dict that renders with Python dict `str()`). -/
structure Relation where
  rel : String
  url : String
  attributes : Option (List (String × String))
  deriving Repr, DecidableEq

/-- An SDK `WorkItem` response object.  `rev := none` models the `rev`
attribute being absent; `fields := none` models `fields` being `None`;
`links := none` models `_links` absent or falsy; likewise `relations`. -/
structure WorkItem where
  id : Int
  rev : Option Int
  fields : Option Fields
  links : Option ReferenceLinks
  relations : Option (List Relation)

/-! ## formatting.py -/

/-- `_format_header` from `features/work_items/formatting.py`. -/
def _format_header (work_item : WorkItem) (fields : Fields) : List String :=
  let title := pyStr (fieldsGetD fields "System.Title" (.str "Untitled"))
  let item_type := pyStr (fieldsGetD fields "System.WorkItemType" (.str "Unknown"))
  let state := pyStr (fieldsGetD fields "System.State" (.str "Unknown"))
  let project := pyStr (fieldsGetD fields "System.TeamProject" (.str "Unknown"))
  let wid := work_item.id
  let header := [s!"# Work Item {wid}: {title}", s!"Type: {item_type}", s!"State: {state}"]
  let header := header ++
    (match work_item.rev with
     | some r => [s!"Revision: {r}"]
     | none => [])
  let header := header ++ [s!"Project: {project}"]
  header ++
    (match work_item.links with
     | some l =>
       match l.html with
       | some href => [s!"Web URL: {href}"]
       | none => []
     | none => [])

/-- `_format_description_sections` from `formatting.py`. -/
def _format_description_sections (fields : Fields) : List String :=
  (match fieldsGet fields "System.Description" with
   | some v => ["\n## Description", pyStr v]
   | none => []) ++
  (match fieldsGet fields "Microsoft.VSTS.Common.AcceptanceCriteria" with
   | some v => ["\n## Acceptance Criteria", pyStr v]
   | none => []) ++
  (match fieldsGet fields "Microsoft.VSTS.TCM.ReproSteps" with
   | some v => ["\n## Repro Steps", pyStr v]
   | none => []) ++
  (match fieldsGet fields "Microsoft.VSTS.TCM.SystemInfo" with
   | some v => ["\n## System Information", pyStr v]
   | none => [])

/-- The `System.AssignedTo` branch of `_format_people_info`: an object
with both `display_name` and `unique_name` attributes renders
`"display (unique)"`; a dict always renders
`"displayName (uniqueName)"` with `""` for missing keys; anything else
falls back to the raw `str()` rendering. -/
def formatAssignedTo (v : PyValue) : String :=
  match v with
  | .obj (some d) (some u) _ => s!"Assigned To: {d} ({u})"
  | .dict es =>
    let d := dictGetD es "displayName" ""
    let u := dictGetD es "uniqueName" ""
    s!"Assigned To: {d} ({u})"
  | v =>
    let raw := pyStr v
    s!"Assigned To: {raw}"

/-- The shared shape of the `CreatedBy` / `ActivatedBy` / `ResolvedBy`
branches of `_format_people_info`: an object with a `display_name`
attribute, or a dict with a `displayName` key, renders the display name
alone; anything else falls back to the raw `str()` rendering. -/
def formatByDisplayName (label : String) (v : PyValue) : String :=
  match v with
  | .obj (some d) _ _ => s!"{label}: {d}"
  | .dict es =>
    if dictHas es "displayName" then
      let d := dictGetD es "displayName" ""
      s!"{label}: {d}"
    else
      let raw := pyDictRepr es
      s!"{label}: {raw}"
  | v =>
    let raw := pyStr v
    s!"{label}: {raw}"

/-- `_format_people_info` from `formatting.py`. -/
def _format_people_info (fields : Fields) : List String :=
  (match fieldsGet fields "System.AssignedTo" with
   | some v => [formatAssignedTo v]
   | none => []) ++
  (match fieldsGet fields "System.CreatedBy" with
   | some v => [formatByDisplayName "Created By" v]
   | none => []) ++
  (match fieldsGet fields "Microsoft.VSTS.Common.ActivatedBy" with
   | some v => [formatByDisplayName "Activated By" v]
   | none => []) ++
  (match fieldsGet fields "Microsoft.VSTS.Common.ResolvedBy" with
   | some v => [formatByDisplayName "Resolved By" v]
   | none => [])

/-- The `System.ChangedBy` rendering inside `_format_dates`: display name
alone when available, raw value otherwise, appended to the
`"Last updated ... by ..."` line. -/
def formatChangedByLine (changed_date : String) (v : PyValue) : String :=
  match v with
  | .obj (some d) _ _ => s!"Last updated {changed_date} by {d}"
  | .dict es =>
    if dictHas es "displayName" then
      let d := dictGetD es "displayName" ""
      s!"Last updated {changed_date} by {d}"
    else
      let raw := pyDictRepr es
      s!"Last updated {changed_date} by {raw}"
  | v =>
    let raw := pyStr v
    s!"Last updated {changed_date} by {raw}"

/-- `_format_dates` from `formatting.py`. -/
def _format_dates (fields : Fields) : List String :=
  (match fieldsGet fields "System.CreatedDate" with
   | some v => [s!"Created Date: " ++ pyStr v]
   | none => []) ++
  (match fieldsGet fields "Microsoft.VSTS.Common.StateChangeDate" with
   | some v => ["State Changed: " ++ pyStr v]
   | none => []) ++
  (match fieldsGet fields "Microsoft.VSTS.Common.ActivatedDate" with
   | some v => ["Activated Date: " ++ pyStr v]
   | none => []) ++
  (match fieldsGet fields "Microsoft.VSTS.Common.ResolvedDate" with
   | some v => ["Resolved Date: " ++ pyStr v]
   | none => []) ++
  (match fieldsGet fields "System.ChangedDate" with
   | some cd =>
     let changed_date := pyStr cd
     match fieldsGet fields "System.ChangedBy" with
     | some cb => [formatChangedByLine changed_date cb]
     | none => [s!"Last updated: {changed_date}"]
   | none => [])

/-- `_format_categorization` from `formatting.py`. -/
def _format_categorization (fields : Fields) : List String :=
  (match fieldsGet fields "System.IterationPath" with
   | some v => ["Iteration: " ++ pyStr v]
   | none => []) ++
  (match fieldsGet fields "System.AreaPath" with
   | some v => ["Area: " ++ pyStr v]
   | none => []) ++
  (match fieldsGet fields "Microsoft.VSTS.Common.ValueArea" with
   | some v => ["Value Area: " ++ pyStr v]
   | none => []) ++
  (match fieldsGet fields "Microsoft.VSTS.Common.Risk" with
   | some v => ["Risk: " ++ pyStr v]
   | none => []) ++
  (match fieldsGet fields "Microsoft.VSTS.Common.Severity" with
   | some v => ["Severity: " ++ pyStr v]
   | none => []) ++
  (match fieldsGet fields "System.Tags" with
   | some v => if pyTruthy v then ["Tags: " ++ pyStr v] else []
   | none => [])

/-- `_format_metrics` from `formatting.py`. -/
def _format_metrics (fields : Fields) : List String :=
  (match fieldsGet fields "Microsoft.VSTS.Common.Priority" with
   | some v => ["Priority: " ++ pyStr v]
   | none => []) ++
  (match fieldsGet fields "Microsoft.VSTS.Scheduling.Effort" with
   | some v => ["Effort: " ++ pyStr v]
   | none => []) ++
  (match fieldsGet fields "Microsoft.VSTS.Scheduling.StoryPoints" with
   | some v => ["Story Points: " ++ pyStr v]
   | none => [])

/-- One relation's lines inside `_format_related_items`. -/
def formatRelation (link : Relation) : List String :=
  [s!"- " ++ link.rel ++ " URL: " ++ link.url] ++
  (match link.attributes with
   | some attrs =>
     if attrs ≠ [] then ["  :: Attributes: " ++ pyDictRepr attrs] else []
   | none => [])

/-- `_format_related_items` from `formatting.py` (note: the
`"\n## Related Items"` heading is built into a local list the source
never returns, so it does not appear in the output). -/
def _format_related_items (work_item : WorkItem) : List String :=
  match work_item.relations with
  | some links => if links ≠ [] then links.flatMap formatRelation else []
  | none => []

/-- `_format_state_info` from `formatting.py`. -/
def _format_state_info (fields : Fields) : List String :=
  match fieldsGet fields "System.Reason" with
  | some v => ["Reason: " ++ pyStr v]
  | none => []

/-- `_format_scheduling_info` from `formatting.py`. -/
def _format_scheduling_info (fields : Fields) : List String :=
  (match fieldsGet fields "Microsoft.VSTS.Scheduling.StartDate" with
   | some v => ["Start Date: " ++ pyStr v]
   | none => []) ++
  (match fieldsGet fields "Microsoft.VSTS.Scheduling.FinishDate" with
   | some v => ["Finish Date: " ++ pyStr v]
   | none => []) ++
  (match fieldsGet fields "Microsoft.VSTS.Scheduling.RemainingWork" with
   | some v => ["Remaining Work: " ++ pyStr v ++ " hours"]
   | none => []) ++
  (match fieldsGet fields "Microsoft.VSTS.Scheduling.CompletedWork" with
   | some v => ["Completed Work: " ++ pyStr v ++ " hours"]
   | none => [])

/-- `_format_board_info` from `formatting.py`: the board column renders
whenever its key is present, and the column-done state renders (as
`Done` / `Not Done`) only when the board-column key is also present. -/
def _format_board_info (fields : Fields) : List String :=
  match fieldsGet fields "System.BoardColumn" with
  | some v =>
    ["Board Column: " ++ pyStr v] ++
    (match fieldsGet fields "System.BoardColumnDone" with
     | some dv =>
       let done_state := if pyTruthy dv then "Done" else "Not Done"
       [s!"Column State: {done_state}"]
     | none => [])
  | none => []

/-- `_format_build_info` from `formatting.py`. -/
def _format_build_info (fields : Fields) : List String :=
  (match fieldsGet fields "Microsoft.VSTS.Build.FoundIn" with
   | some v => ["Found In: " ++ pyStr v]
   | none => []) ++
  (match fieldsGet fields "Microsoft.VSTS.Build.IntegrationBuild" with
   | some v => ["Integration Build: " ++ pyStr v]
   | none => [])

/-- `format_work_item` from `formatting.py`: the structured full
rendering of a work item. -/
def format_work_item (work_item : WorkItem) : String :=
  let fields := work_item.fields.getD []
  let details :=
    _format_header work_item fields ++
    _format_description_sections fields ++
    ["\n## Additional Details"] ++
    _format_people_info fields ++
    _format_dates fields ++
    _format_state_info fields ++
    _format_board_info fields ++
    _format_scheduling_info fields ++
    _format_categorization fields ++
    _format_metrics fields ++
    _format_build_info fields ++
    _format_related_items work_item
  String.intercalate "\n" details

/-! ## tools.py (legacy module): basic work-item formatting -/

/-- `_format_work_item_basic` from `features/work_items/tools.py`.  The
web-URL part is added only when `_links` is truthy, has a `self`
attribute, and the `html` link has an `href`. -/
def _format_work_item_basic (work_item : WorkItem) : String :=
  let fields := work_item.fields.getD []
  let title := pyStr (fieldsGetD fields "System.Title" (.str "Untitled"))
  let item_type := pyStr (fieldsGetD fields "System.WorkItemType" (.str "Unknown"))
  let state := pyStr (fieldsGetD fields "System.State" (.str "Unknown"))
  let project := pyStr (fieldsGetD fields "System.TeamProject" (.str "Unknown"))
  let url_part :=
    match work_item.links with
    | some l =>
      match l.html with
      | some href => if l.hasSelf then s!"\nWeb URL: {href}" else ""
      | none => ""
    | none => ""
  let wid := work_item.id
  s!"# Work Item {wid}: {title}\nType: {item_type}\nState: {state}\nProject: {project}{url_part}"

/-! ## Substring helper (for stating "output contains ...") -/

/-- `strContains s pat` is true iff `pat` occurs as a contiguous
substring of `s`. -/
def strContains (s pat : String) : Bool :=
  s.toList.tails.any (fun t => pat.toList.isPrefixOf t)

/-! ## API-call traces

Tool implementations are embedded as functions from their parameters and
an oracle environment (the predetermined outcomes of the backing API
calls) to their result plus the ordered trace of calls issued. -/

/-- The value carried by a JSON patch operation: a plain string field
value, or the relation dict used by link documents. -/
inductive PatchValue where
  | str (s : String)
  | relLink (rel : String) (url : String)
  deriving Repr, DecidableEq

/-- A `JsonPatchOperation`. -/
structure JsonPatchOperation where
  op : String
  path : String
  value : PatchValue
  deriving Repr, DecidableEq

/-- One backing API call issued by a tool implementation. -/
inductive WitCall where
  | createWorkItem (document : List JsonPatchOperation) (project : String) (type : String)
  | updateWorkItem (document : List JsonPatchOperation) (id : Int) (project : Option String)
  | getWorkItem (id : Int)
  | getWorkItemsBatch (ids : List Int) (errorPolicy : String)
  | queryByWiql (query : String) (top : Int)
  | getComments (project : String) (workItemId : Int)
  | addComment (text : String) (project : String) (workItemId : Int)
  deriving Repr, DecidableEq

/-! ## tools/create.py -/

/-- `_build_field_document` from `features/work_items/tools/create.py`:
one patch operation per field, paths prefixed with `/fields/` unless
already so prefixed. -/
def _build_field_document (fields : List (String × String)) (operation : String) : List JsonPatchOperation :=
  fields.map (fun p =>
    let path := if p.1.startsWith "/fields/" then p.1 else "/fields/" ++ p.1
    { op := operation, path := path, value := .str p.2 })

/-- `_build_link_document` from `create.py`. -/
def _build_link_document (target_id : Int) (link_type : String) (org_url : String) : List JsonPatchOperation :=
  [{ op := "add", path := "/relations/-",
     value := .relLink link_type (org_url ++ "/_apis/wit/workItems/" ++ toString target_id) }]

/-- `_prepare_create_fields` from `create.py` (named
`_prepare_standard_fields` in the repository's tests).  The
`story_points` float is represented by its `str()` rendering, since the
source only ever applies `str` to it; `priority` keeps its integer
value. -/
def _prepare_create_fields (title : String) (description state assigned_to iteration_path area_path : Option String) (story_points : Option String) (priority : Option Int) (tags : Option String) : List (String × String) :=
  [("System.Title", title)] ++
  (match description with
   | some d => if d ≠ "" then [("System.Description", d)] else []
   | none => []) ++
  (match state with
   | some st => if st ≠ "" then [("System.State", st)] else []
   | none => []) ++
  (match assigned_to with
   | some a => if a ≠ "" then [("System.AssignedTo", a)] else []
   | none => []) ++
  (match iteration_path with
   | some ip => if ip ≠ "" then [("System.IterationPath", ip)] else []
   | none => []) ++
  (match area_path with
   | some ap => if ap ≠ "" then [("System.AreaPath", ap)] else []
   | none => []) ++
  (match story_points with
   | some sp => [("Microsoft.VSTS.Scheduling.StoryPoints", sp)]
   | none => []) ++
  (match priority with
   | some pr => [("Microsoft.VSTS.Common.Priority", toString pr)]
   | none => []) ++
  (match tags with
   | some t => if t ≠ "" then [("System.Tags", t)] else []
   | none => [])

/-- Oracle outcomes of the backing calls used by `create.py`:
`createResult` is what `wit_client.create_work_item` yields (`.error e`
modelling a raised exception), and `updateResult` likewise for
`wit_client.update_work_item`. -/
structure CreateClient where
  createResult : Except String WorkItem
  updateResult : Except String WorkItem

/-- `_create_work_item_impl` from `create.py`.  The result is `.error e`
when an exception propagates out of the implementation (to be caught by
the registered tool wrapper); `if parent_id:` skips the link step for
`None` and for a falsy `0`. -/
def _create_work_item_impl (fields : List (String × String)) (project : String) (work_item_type : String) (client : CreateClient) (parent_id : Option Int) (org_url : String) : Except String String × List WitCall :=
  let document := _build_field_document fields "add"
  let createCall := WitCall.createWorkItem document project work_item_type
  match client.createResult with
  | .error e => (.error e, [createCall])
  | .ok new_work_item =>
    let parentTruthy : Bool := match parent_id with
      | some pid => pid != 0
      | none => false
    if parentTruthy then
      let pid := parent_id.getD 0
      let link_document := _build_link_document pid "System.LinkTypes.Hierarchy-Reverse" org_url
      let linkCall := WitCall.updateWorkItem link_document new_work_item.id (some project)
      match client.updateResult with
      | .ok updated => (.ok (format_work_item updated), [createCall, linkCall])
      | .error e =>
        let fmt := format_work_item new_work_item
        (.ok (s!"Work item created successfully, but failed to establish parent-child relationship: {e}\n\n{fmt}"),
         [createCall, linkCall])
    else
      (.ok (format_work_item new_work_item), [createCall])

/-- `_update_work_item_impl` from `create.py`. -/
def _update_work_item_impl (id : Int) (fields : List (String × String)) (client : CreateClient) (project : Option String) : Except String String × List WitCall :=
  let document := _build_field_document fields "replace"
  let call := WitCall.updateWorkItem document id project
  match client.updateResult with
  | .ok updated => (.ok (format_work_item updated), [call])
  | .error e => (.error e, [call])

/-- Remove a key from a prepared fields list (`fields.pop(k, None)`). -/
def fieldsPop (fields : List (String × String)) (key : String) : List (String × String) :=
  fields.filter (fun p => p.1 ≠ key)

/-- The registered `update_work_item` tool from `create.py`: prepares the
field patch (with `""` standing in for an unsupplied title, popped again
when the title is falsy), validates that at least one field remains
before any backing call, and renders raised exceptions as error
strings. -/
def update_work_item (id : Int) (project : Option String) (title description state assigned_to iteration_path area_path : Option String) (story_points : Option String) (priority : Option Int) (tags : Option String) (client : CreateClient) : String × List WitCall :=
  let title0 := match title with
    | some t => if t ≠ "" then t else ""
    | none => ""
  let fields0 := _prepare_create_fields title0 description state assigned_to iteration_path area_path story_points priority tags
  let fields := if optTruthy title then fields0 else fieldsPop fields0 "System.Title"
  if fields.isEmpty then
    ("Error: At least one field must be specified for update", [])
  else
    match _update_work_item_impl id fields client project with
    | (.ok s, trace) => (s, trace)
    | (.error e, trace) => (s!"Error updating work item: {e}", trace)

/-! ## tools/read.py -/

/-- Python `str()` of a list of ints (the error-message rendering of a
list-of-ids argument). -/
def pyIntListRepr (ids : List Int) : String :=
  "[" ++ String.intercalate ", " (ids.map toString) ++ "]"

/-- Oracle outcomes of the backing calls used by `read.py`:
`getResult` for `wit_client.get_work_item(id, expand="all")` and
`batchResult` for
`wit_client.get_work_items(ids, error_policy="omit", expand="all")`,
whose list carries `none` entries for individually failed lookups under
the `"omit"` policy. -/
structure ReadClient where
  getResult : Except String WorkItem
  batchResult : Except String (List (Option WorkItem))

/-- `_get_work_item_impl` from `features/work_items/tools/read.py`,
polymorphic over a single id (`.inl`) versus a list of ids (`.inr`). -/
def _get_work_item_impl (item_id : Int ⊕ List Int) (client : ReadClient) : String × List WitCall :=
  match item_id with
  | .inl i =>
    match client.getResult with
    | .ok work_item => (format_work_item work_item, [WitCall.getWorkItem i])
    | .error e => (s!"Error retrieving work item {i}: {e}", [WitCall.getWorkItem i])
  | .inr ids =>
    let call := WitCall.getWorkItemsBatch ids "omit"
    match client.batchResult with
    | .error e =>
      let idsRepr := pyIntListRepr ids
      (s!"Error retrieving work items {idsRepr}: {e}", [call])
    | .ok work_items =>
      if work_items.isEmpty then
        ("No work items found.", [call])
      else
        let formatted_results := work_items.filterMap (fun w => w.map format_work_item)
        if formatted_results.isEmpty then
          ("No valid work items found with the provided IDs.", [call])
        else
          (String.intercalate "\n\n" formatted_results, [call])

/-! ## tools/query.py -/

/-- Oracle outcomes of the backing calls used by `query.py`:
`queryResult` is the list of work-item reference ids produced by
`query_by_wiql(...).work_items` (already converted with `int(res.id)`),
and `batchResult` as in `ReadClient`. -/
structure QueryClient where
  queryResult : Except String (List Int)
  batchResult : Except String (List (Option WorkItem))

/-- `_query_work_items_impl` from `features/work_items/tools/query.py`.
`.error e` in the result models an exception propagating out of the
implementation. -/
def _query_work_items_impl (query : String) (top : Int) (client : QueryClient) : Except String String × List WitCall :=
  let qcall := WitCall.queryByWiql query top
  match client.queryResult with
  | .error e => (.error e, [qcall])
  | .ok wiql_results =>
    if wiql_results.isEmpty then
      (.ok "No work items found matching the query.", [qcall])
    else
      let bcall := WitCall.getWorkItemsBatch wiql_results "omit"
      match client.batchResult with
      | .error e => (.error e, [qcall, bcall])
      | .ok work_items =>
        let formatted_results := work_items.filterMap (fun w => w.map format_work_item)
        (.ok (String.intercalate "\n\n" formatted_results), [qcall, bcall])

/-! ## tools/comments.py -/

/-- A comment identity (`created_by`) with an optional display name. -/
structure CommentIdentity where
  display_name : Option String
  deriving Repr, DecidableEq

/-- An SDK comment object; `none` models an absent or falsy attribute. -/
structure PyComment where
  text : Option String
  created_date : Option String
  created_by : Option CommentIdentity
  deriving Repr, DecidableEq

/-- `_format_comment` from `features/work_items/tools/comments.py`. -/
def _format_comment (comment : PyComment) : String :=
  let created_date := match comment.created_date with
    | some d => if d ≠ "" then s!" on {d}" else ""
    | none => ""
  let author := match comment.created_by with
    | some idn =>
      match idn.display_name with
      | some d => if d ≠ "" then d else "Unknown"
      | none => "Unknown"
    | none => "Unknown"
  let text := match comment.text with
    | some t => if t ≠ "" then t else "No text"
    | none => "No text"
  s!"## Comment by {author}{created_date}:\n{text}"

/-- A work item as seen by the project-derivation lookup in
`comments.py`: only its `fields` attribute matters there. -/
structure CommentsWorkItem where
  fields : Option Fields

/-- Oracle outcomes of the backing calls used by `comments.py`.
`workItem` is the result of `wit_client.get_work_item(item_id)` (with
`.ok none` modelling a `None` return), `commentsResult` the
`.comments` list of `get_comments`, and `addResult` the comment
returned by `add_comment`. -/
structure CommentsClient where
  workItem : Except String (Option CommentsWorkItem)
  commentsResult : Except String (List PyComment)
  addResult : Except String PyComment

/-- `_get_project_for_work_item` from `comments.py`: any raised
exception is swallowed and `None` is returned; otherwise the
`System.TeamProject` field value (possibly absent) of a truthy work
item with a truthy fields mapping. -/
def _get_project_for_work_item (item_id : Int) (client : CommentsClient) : Option PyValue × List WitCall :=
  let call := [WitCall.getWorkItem item_id]
  match client.workItem with
  | .error _ => (none, call)
  | .ok none => (none, call)
  | .ok (some work_item) =>
    match work_item.fields with
    | some fs => if fs.isEmpty then (none, call) else (fieldsGet fs "System.TeamProject", call)
    | none => (none, call)

/-- Resolve the effective project for a comments operation: the caller's
argument if truthy, otherwise the value derived from the work item; the
second component is the derivation trace, the third signals the
"could not determine project" failure. -/
def resolveCommentsProject (item_id : Int) (project : Option String) (client : CommentsClient) : Option String × List WitCall :=
  if optTruthy project then (project, [])
  else
    match _get_project_for_work_item item_id client with
    | (some v, tr) => if pyTruthy v then (some (pyStr v), tr) else (none, tr)
    | (none, tr) => (none, tr)

/-- `_get_work_item_comments_impl` from `comments.py`. -/
def _get_work_item_comments_impl (item_id : Int) (client : CommentsClient) (project : Option String) : Except String String × List WitCall :=
  match resolveCommentsProject item_id project client with
  | (none, tr) => (.ok s!"Error retrieving work item {item_id} to determine project", tr)
  | (some proj, tr) =>
    let call := WitCall.getComments proj item_id
    match client.commentsResult with
    | .error e => (.error e, tr ++ [call])
    | .ok comments =>
      let formatted_comments := comments.map _format_comment
      if formatted_comments.isEmpty then
        (.ok "No comments found for this work item.", tr ++ [call])
      else
        (.ok (String.intercalate "\n\n" formatted_comments), tr ++ [call])

/-- `_add_work_item_comment_impl` from `comments.py`. -/
def _add_work_item_comment_impl (item_id : Int) (text : String) (client : CommentsClient) (project : Option String) : Except String String × List WitCall :=
  match resolveCommentsProject item_id project client with
  | (none, tr) => (.ok s!"Error retrieving work item {item_id} to determine project", tr)
  | (some proj, tr) =>
    let call := WitCall.addComment text proj item_id
    match client.addResult with
    | .error e => (.error e, tr ++ [call])
    | .ok new_comment =>
      let fmt := _format_comment new_comment
      (.ok s!"Comment added successfully.\n\n{fmt}", tr ++ [call])

/-! ## tools/types.py -/

/-- A process-API field summary (from
`get_all_work_item_type_fields`): display name and reference name. -/
structure ProcessField where
  name : String
  reference_name : String
  deriving Repr, DecidableEq

/-- A process-API field detail object (from
`get_work_item_type_field`).  `description := none` models absent or
`None`; `type := none` models `hasattr(field, "type")` being false;
`required` / `read_only` fold `getattr(..., False)` and truthiness;
`allowed_values` is `[]` when absent or empty; `default_value` uses the
`is not None` check, so `some ""` still renders. -/
structure WitFieldDetail where
  name : String
  reference_name : String
  description : Option String
  type : Option String
  required : Bool
  read_only : Bool
  allowed_values : List String
  default_value : Option String
  deriving Repr, DecidableEq

/-- The field-detail rendering at the end of
`_get_work_item_type_field_impl`. -/
def formatFieldDetail (field : WitFieldDetail) : String :=
  let fname := field.name
  let fref := field.reference_name
  let result := [s!"# Field: {fname}", s!"Reference Name: {fref}"]
  let result := result ++
    (match field.description with
     | some d => if d ≠ "" then [s!"Description: {d}"] else []
     | none => [])
  let result := result ++
    (match field.type with
     | some t => [s!"Type: {t}"]
     | none => [])
  let is_required := if field.required then "Yes" else "No"
  let is_read_only := if field.read_only then "Yes" else "No"
  let result := result ++ [s!"Required: {is_required}", s!"Read Only: {is_read_only}"]
  let result := result ++
    (if field.allowed_values ≠ [] then
      ["\n## Allowed Values"] ++ field.allowed_values.map (fun v => s!"- {v}")
     else [])
  let result := result ++
    (match field.default_value with
     | some dv => [s!"\nDefault Value: {dv}"]
     | none => [])
  String.intercalate "\n" result

/-- Oracle outcomes of the backing calls used by
`_get_work_item_type_field_impl`: the work-item type lookup (`.ok none`
modelling a falsy return), the project's process-template id as derived
from `capabilities` (`none` or `some ""` being falsy), the full field
list of the type, and the per-reference-name detail fetch. -/
structure TypesClient where
  workItemType : Except String (Option String)
  capabilities : Except String (List (String × List (String × String)))
  allFields : Except String (List ProcessField)
  getField : String → Except String (Option WitFieldDetail)

/-- `capabilities.get("processTemplate", {}).get("templateTypeId")`:
the nested dict lookup deriving the process id, `none` when either key
is missing. -/
def deriveProcessId (capabilities : List (String × List (String × String))) : Option String :=
  match capabilities.find? (fun p => p.1 = "processTemplate") with
  | some p =>
    match p.2.find? (fun q => q.1 = "templateTypeId") with
    | some q => some q.2
    | none => none
  | none => none

/-- Python `str.lower()` (ASCII model, kernel-reducible). -/
def strToLower (s : String) : String :=
  String.mk (s.toList.map Char.toLower)

/-- `"." in name`: whether a field name is dotted (fully qualified). -/
def containsDot (s : String) : Bool :=
  s.toList.any (fun c => c = '.')

/-- The uniform `except`-clause message of
`_get_work_item_type_field_impl`; `fname` is the binding of
`field_name` current at the point the exception is raised. -/
def fieldErrMsg (fname type_name project e : String) : String :=
  s!"Error retrieving field \x27{fname}\x27 for work item type \x27{type_name}\x27 in project \x27{project}\x27: {e}"

/-- The "field not found" message of `_get_work_item_type_field_impl`. -/
def fieldNotFoundMsg (fname type_name project : String) : String :=
  s!"Field \x27{fname}\x27 not found for work item type \x27{type_name}\x27 in project \x27{project}\x27."

/-- The trailing detail fetch of `_get_work_item_type_field_impl`, after
`field_name` holds a reference name. -/
def fetchFieldDetail (project type_name field_name : String) (client : TypesClient) : String :=
  match client.getField field_name with
  | .error e => fieldErrMsg field_name type_name project e
  | .ok none => fieldNotFoundMsg field_name type_name project
  | .ok (some field) => formatFieldDetail field

/-- `_get_work_item_type_field_impl` from
`features/work_items/tools/types.py`: resolves a non-dotted input name
case-insensitively against the display names of the type's field list
before the detail fetch; dotted names go to the detail fetch directly.
Every raised exception is rendered with the current `field_name`
binding. -/
def _get_work_item_type_field_impl (project type_name field_name : String) (client : TypesClient) : String :=
  match client.workItemType with
  | .error e => fieldErrMsg field_name type_name project e
  | .ok none => s!"Work item type \x27{type_name}\x27 not found in project {project}."
  | .ok (some _wit_ref_name) =>
    match client.capabilities with
    | .error e => fieldErrMsg field_name type_name project e
    | .ok caps =>
      let pid := deriveProcessId caps
      if optTruthy pid = false then
        s!"Could not determine process ID for project {project}"
      else
        if containsDot field_name then
          fetchFieldDetail project type_name field_name client
        else
          match client.allFields with
          | .error e => fieldErrMsg field_name type_name project e
          | .ok all_fields =>
            match all_fields.find? (fun f => strToLower f.name = strToLower field_name) with
            | some f => fetchFieldDetail project type_name f.reference_name client
            | none => fieldNotFoundMsg field_name type_name project

/-! ## teams/tools.py -/

/-- A team-member identity; `none` models an attribute that is absent or
`None` (the SDK model always defines the slots, holding `None` when
unpopulated). -/
structure TeamMemberIdentity where
  display_name : Option String
  id : Option String
  descriptor : Option String
  unique_name : Option String
  deriving Repr, DecidableEq

/-- A team member: an optional identity plus the
`is_team_admin` flag; `none` in the flag slot models
`hasattr(team_member, "is_team_admin")` being false, and a present
`None`/falsy value folds to `false`. -/
structure TeamMember where
  identity : Option TeamMemberIdentity
  is_team_admin : Option Bool
  deriving Repr, DecidableEq

/-- `_format_team_member` from `features/teams/tools.py`: identity
sub-fields render iff present and truthy (with the header falling back
to the raw member id), and the team-admin flag renders as
`"Yes"`/`"No"` whenever the attribute exists, even when false. -/
def _format_team_member (team_member : TeamMember) : String :=
  let identityLines :=
    match team_member.identity with
    | some identity =>
      (if optTruthy identity.display_name then
        let d := identity.display_name.getD ""
        [s!"# Member: {d}"]
       else
        let i := pyOptReprStr identity.id
        [s!"# Member ID: {i}"]) ++
      (if optTruthy identity.id then
        let i := identity.id.getD ""
        [s!"ID: {i}"]
       else []) ++
      (if optTruthy identity.descriptor then
        let ds := identity.descriptor.getD ""
        [s!"Descriptor: {ds}"]
       else []) ++
      (if optTruthy identity.unique_name then
        let u := identity.unique_name.getD ""
        [s!"Email/Username: {u}"]
       else [])
    | none => ["# Unknown Member"]
  let adminLines :=
    match team_member.is_team_admin with
    | some b =>
      let is_admin := if b then "Yes" else "No"
      [s!"Team Administrator: {is_admin}"]
    | none => []
  String.intercalate "\n" (identityLines ++ adminLines)

/-! ## Field-name normalization -/

/-- Case- and separator-insensitive key of a short field name (lower
case, underscores dropped). -/
def normalizeFieldKey (s : String) : String :=
  String.mk ((s.toList.map Char.toLower).filter (fun c => c ≠ '_'))

/-- Modelled from the spec: the repository's `_ensure_system_prefix`
(exercised by `tests/features/work_items/test_create.py` but absent
from the provided sources) maps a closed set of known short field names
— case- and separator-insensitively — to their fully qualified
reference names; any already-qualified name (one containing a `.`) and
any unrecognized name pass through unchanged. -/
def _ensure_system_prefix (field_name : String) : String :=
  if containsDot field_name then field_name
  else
    let key := normalizeFieldKey field_name
    if key = "title" then "System.Title"
    else if key = "description" then "System.Description"
    else if key = "assignedto" then "System.AssignedTo"
    else if key = "iterationpath" then "System.IterationPath"
    else if key = "areapath" then "System.AreaPath"
    else if key = "storypoints" then "Microsoft.VSTS.Scheduling.StoryPoints"
    else if key = "priority" then "Microsoft.VSTS.Common.Priority"
    else field_name

/-! ## Theorems -/

/-- Helper: a dotted name is a fixed point of the normalization. -/
theorem ensure_system_prefix_dotted (y : String) (h : containsDot y = true) :
    _ensure_system_prefix y = y := by
  unfold _ensure_system_prefix
  simp [h]

/-- Helper: normalization either returns its input or a dotted
qualified name. -/
theorem ensure_system_prefix_cases (x : String) :
    _ensure_system_prefix x = x ∨ containsDot ( _ensure_system_prefix x) = true := by
  unfold _ensure_system_prefix
  by_cases h : containsDot x
  · simp [h]
  · simp [h]
    split_ifs <;> first
      | (left; rfl)
      | (right; decide)

/-- C6: `_ensure_system_prefix` is idempotent: for every input string
`x`, normalizing twice equals normalizing once; in particular an
already-qualified (dotted) name returns unchanged, known short names
map to their fully qualified reference names, and unrecognized names
pass through unchanged. -/
theorem c6_ensure_system_prefix_idempotent :
    (∀ x : String, _ensure_system_prefix ( _ensure_system_prefix x) = _ensure_system_prefix x)
    ∧ _ensure_system_prefix "System.Title" = "System.Title"
    ∧ _ensure_system_prefix "Microsoft.VSTS.Common.Priority" = "Microsoft.VSTS.Common.Priority"
    ∧ _ensure_system_prefix "title" = "System.Title"
    ∧ _ensure_system_prefix "assignedTo" = "System.AssignedTo"
    ∧ _ensure_system_prefix "area_path" = "System.AreaPath"
    ∧ _ensure_system_prefix "storyPoints" = "Microsoft.VSTS.Scheduling.StoryPoints"
    ∧ _ensure_system_prefix "CustomField" = "CustomField" := by
  refine ⟨fun x => ?_, by decide, by decide, by decide, by decide, by decide, by decide, by decide⟩
  rcases ensure_system_prefix_cases x with h | h
  · rw [h]; exact h
  · exact ensure_system_prefix_dotted _ h

/-- C1 counterexample: for the person-valued field `System.CreatedBy`
given as a mapping with both `displayName` and `uniqueName` available,
the formatter renders the display name alone — the output does not
contain `"A (b@x)"`, contradicting the claimed uniform 3-way fallback
across all person-valued fields. -/
theorem c1_person_fallback_cex :
    _format_people_info [("System.CreatedBy", PyValue.dict [("displayName", "A"), ("uniqueName", "b@x")])]
      = ["Created By: A"]
    ∧ strContains (String.intercalate "\n" ( _format_people_info [("System.CreatedBy", PyValue.dict [("displayName", "A"), ("uniqueName", "b@x")])])) "A (b@x)" = false := by
  exact ⟨rfl, by decide⟩

/-- C1 (amended): person-valued fields are not formatted uniformly.
`System.AssignedTo` renders `"display (unique)"` for an attribute
object exposing both names and for any mapping (with `""` substituted
for missing keys, so a display-only mapping renders `"A ()"`); an
attribute object exposing only the display name falls through to the
raw representation.  `System.CreatedBy`,
`Microsoft.VSTS.Common.ActivatedBy`, `Microsoft.VSTS.Common.ResolvedBy`
and `System.ChangedBy` render the display name alone whenever it is
available (attribute object or mapping) — never appending the unique
name — and the raw string representation otherwise.  A bare scalar
renders verbatim for every person-valued field. -/
theorem c1_person_fallback_amended (d u r s date : String) :
    _format_people_info [("System.AssignedTo", PyValue.obj (some d) (some u) r)]
      = [s!"Assigned To: {d} ({u})"]
    ∧ _format_people_info [("System.AssignedTo", PyValue.dict [("displayName", d), ("uniqueName", u)])]
      = [s!"Assigned To: {d} ({u})"]
    ∧ _format_people_info [("System.AssignedTo", PyValue.dict [("displayName", d)])]
      = [s!"Assigned To: {d} ()"]
    ∧ _format_people_info [("System.AssignedTo", PyValue.obj (some d) none r)]
      = [s!"Assigned To: {r}"]
    ∧ _format_people_info [("System.AssignedTo", PyValue.str s)]
      = [s!"Assigned To: {s}"]
    ∧ _format_people_info [("System.CreatedBy", PyValue.obj (some d) (some u) r)]
      = [s!"Created By: {d}"]
    ∧ _format_people_info [("System.CreatedBy", PyValue.dict [("displayName", d), ("uniqueName", u)])]
      = [s!"Created By: {d}"]
    ∧ _format_people_info [("System.CreatedBy", PyValue.str s)]
      = [s!"Created By: {s}"]
    ∧ _format_people_info [("Microsoft.VSTS.Common.ActivatedBy", PyValue.obj (some d) (some u) r)]
      = [s!"Activated By: {d}"]
    ∧ _format_people_info [("Microsoft.VSTS.Common.ActivatedBy", PyValue.str s)]
      = [s!"Activated By: {s}"]
    ∧ _format_people_info [("Microsoft.VSTS.Common.ResolvedBy", PyValue.obj (some d) (some u) r)]
      = [s!"Resolved By: {d}"]
    ∧ _format_people_info [("Microsoft.VSTS.Common.ResolvedBy", PyValue.str s)]
      = [s!"Resolved By: {s}"]
    ∧ _format_dates [("System.ChangedDate", PyValue.str date), ("System.ChangedBy", PyValue.obj (some d) (some u) r)]
      = [s!"Last updated {date} by {d}"]
    ∧ _format_dates [("System.ChangedDate", PyValue.str date), ("System.ChangedBy", PyValue.str s)]
      = [s!"Last updated {date} by {s}"] := by
  refine ⟨rfl, rfl, ?_, rfl, rfl, rfl, rfl, rfl, rfl, rfl, rfl, rfl, rfl, rfl⟩
  simp [ _format_people_info, formatAssignedTo, fieldsGet, dictGetD, String.append_assoc, toString]

/-- The concrete work item used for the C2 counterexample: exactly the
three keys `System.Title`, `System.WorkItemType`, `System.State`. -/
def wiThreeFields : WorkItem :=
  ⟨1, none, some [("System.Title", PyValue.str "T"), ("System.WorkItemType", PyValue.str "Bug"), ("System.State", PyValue.str "New")], none, none⟩

/-- C2 counterexample: basic formatting of a work item whose field
mapping contains exactly `System.Title`, `System.WorkItemType` and
`System.State` still emits a `Project:` line (falling back to
`Unknown`), so the output is not limited to the header, Type and State
lines. -/
theorem c2_basic_format_cex :
    _format_work_item_basic wiThreeFields
      = "# Work Item 1: T\nType: Bug\nState: New\nProject: Unknown"
    ∧ strContains ( _format_work_item_basic wiThreeFields) "Project: Unknown" = true
    ∧ _format_work_item_basic wiThreeFields ≠ "# Work Item 1: T\nType: Bug\nState: New" := by
  refine ⟨by decide, by decide, by decide⟩

/-- C2 (amended): for every work item whose field mapping contains
exactly `System.Title`, `System.WorkItemType` and `System.State` (and
which has no revision attribute and no links), basic formatting
produces exactly the header line `# Work Item {id}: {title}`, one Type
line, one State line, and one `Project: Unknown` line (the project
falls back to `"Unknown"` when `System.TeamProject` is absent) — and
nothing else: no web URL, no revision, no further sections. -/
theorem c2_basic_format_amended (i : Int) (t ty st : String) :
    _format_work_item_basic ⟨i, none, some [("System.Title", PyValue.str t), ("System.WorkItemType", PyValue.str ty), ("System.State", PyValue.str st)], none, none⟩
      = s!"# Work Item {i}: {t}\nType: {ty}\nState: {st}\nProject: Unknown" := by
  simp [ _format_work_item_basic, fieldsGetD, fieldsGet, pyStr, String.append_assoc, toString]

/-- C7 counterexample: `System.BoardColumnDone` is an explicit boolean
status field, yet with the attribute present (value `False`) and
`System.BoardColumn` absent, the board formatter renders nothing at
all — the flag is not rendered "whenever the attribute itself is
present"; and when it is rendered, it reads `Done`/`Not Done`, not
`Yes`/`No`. -/
theorem c7_truthy_fields_cex :
    _format_board_info [("System.BoardColumnDone", PyValue.bool false)] = []
    ∧ _format_board_info [("System.BoardColumn", PyValue.str "Doing"), ("System.BoardColumnDone", PyValue.bool false)]
      = ["Board Column: Doing", "Column State: Not Done"] := by
  exact ⟨rfl, rfl⟩

/-- C7 (amended): in the team-member formatter, optional identity
fields appear iff the attribute is present and truthy, and the
`is_team_admin` flag renders as `Yes`/`No` whenever the attribute is
present, even when false; in the board formatter, the board column
renders whenever its key is present, while the board-column-done flag
renders only when `System.BoardColumn` is also present, and then as
`Done`/`Not Done` (not `Yes`/`No`). -/
theorem c7_truthy_fields_amended (c : String) :
    _format_board_info [("System.BoardColumnDone", PyValue.bool false)] = []
    ∧ _format_board_info [("System.BoardColumnDone", PyValue.bool true)] = []
    ∧ _format_board_info [("System.BoardColumn", PyValue.str c)] = ["Board Column: " ++ c]
    ∧ _format_board_info [("System.BoardColumn", PyValue.str c), ("System.BoardColumnDone", PyValue.bool false)]
      = ["Board Column: " ++ c, "Column State: Not Done"]
    ∧ _format_board_info [("System.BoardColumn", PyValue.str c), ("System.BoardColumnDone", PyValue.bool true)]
      = ["Board Column: " ++ c, "Column State: Done"]
    ∧ _format_team_member ⟨some ⟨some "Jane", some "id1", some "desc1", some "jane@x"⟩, some false⟩
      = "# Member: Jane\nID: id1\nDescriptor: desc1\nEmail/Username: jane@x\nTeam Administrator: No"
    ∧ _format_team_member ⟨some ⟨some "Jane", some "id1", some "", none⟩, some true⟩
      = "# Member: Jane\nID: id1\nTeam Administrator: Yes"
    ∧ _format_team_member ⟨some ⟨some "Jane", some "id1", none, none⟩, none⟩
      = "# Member: Jane\nID: id1"
    ∧ _format_team_member ⟨none, some true⟩
      = "# Unknown Member\nTeam Administrator: Yes" := by
  refine ⟨rfl, rfl, rfl, rfl, rfl, by decide, by decide, by decide, by decide⟩

/-- Helper: a string contains its own suffix. -/
theorem strContains_append_right (a b : String) : strContains (a ++ b) b = true := by
  simp only [strContains, List.any_eq_true]
  refine ⟨b.toList, ?_, ?_⟩
  · rw [List.mem_tails]
    have : (a ++ b).toList = a.toList ++ b.toList := by
      simp [String.toList]
    rw [this]
    exact List.suffix_append a.toList b.toList
  · simp [List.isPrefixOf_iff_prefix]

/-- C3: when `create_work_item` is invoked with a (truthy) `parent_id`,
the creation succeeds, and the subsequent parent-link update raises, the
implementation still returns a success string consisting of the
partial-failure note followed by the fully formatted newly created work
item — never a bare error — and the call trace is exactly the creation
followed by the link attempt (no rollback of the created item). -/
theorem c3_create_partial_failure (fields : List (String × String)) (project work_item_type org_url e : String) (pid : Int) (client : CreateClient) (wi : WorkItem)
    (hc : client.createResult = .ok wi)
    (hu : client.updateResult = .error e)
    (hp : pid ≠ 0) :
    ( _create_work_item_impl fields project work_item_type client (some pid) org_url).1
      = .ok ("Work item created successfully, but failed to establish parent-child relationship: "
              ++ e ++ "\n\n" ++ format_work_item wi)
    ∧ ( _create_work_item_impl fields project work_item_type client (some pid) org_url).2
      = [WitCall.createWorkItem ( _build_field_document fields "add") project work_item_type,
         WitCall.updateWorkItem ( _build_link_document pid "System.LinkTypes.Hierarchy-Reverse" org_url) wi.id (some project)]
    ∧ strContains
        ((fun r => match r with | .ok s => s | .error s => s) ( _create_work_item_impl fields project work_item_type client (some pid) org_url).1)
        (format_work_item wi) = true := by
  obtain ⟨cr, ur⟩ := client
  simp only at hc hu
  subst hc hu
  have hpb : (pid != 0) = true := by simpa using hp
  have hmain : ( _create_work_item_impl fields project work_item_type ⟨.ok wi, .error e⟩ (some pid) org_url).1
      = .ok ("Work item created successfully, but failed to establish parent-child relationship: "
              ++ e ++ "\n\n" ++ format_work_item wi) := by
    simp [ _create_work_item_impl, hpb, String.append_assoc, toString]
  refine ⟨hmain, ?_, ?_⟩
  · simp [ _create_work_item_impl, hpb]
  · rw [hmain]
    exact strContains_append_right _ _

/-- C4: calling the `update_work_item` tool with none of the optional
field parameters supplied returns the explicit validation error string
and issues no backing API call at all. -/
theorem c4_update_requires_field (id : Int) (project : Option String) (client : CreateClient) :
    update_work_item id project none none none none none none none none none client
      = ("Error: At least one field must be specified for update", []) := rfl

/-- Helper: formatting a batch result all of whose entries are `none`
yields no formatted items. -/
theorem filterMap_format_eq_nil (wis : List (Option WorkItem)) (h : wis.all Option.isNone = true) :
    wis.filterMap (fun w => w.map format_work_item) = [] := by
  induction wis with
  | nil => rfl
  | cons a t ih =>
    simp only [List.all_cons, Bool.and_eq_true] at h
    obtain ⟨ha, ht⟩ := h
    cases a with
    | none => simpa using ih ht
    | some w => simp at ha

/-- C5: the list branch of `get_work_item` performs exactly one batch
fetch with the `"omit"` error policy; `none` entries (individually
failed lookups) are skipped so the result joins only the formatted
surviving items; an outright empty collection yields
`"No work items found."` while a non-empty collection that is all
`none` after filtering yields the distinct
`"No valid work items found with the provided IDs."`. -/
theorem c5_get_work_item_list (ids : List Int) (client : ReadClient) (wis : List (Option WorkItem))
    (h : client.batchResult = .ok wis) :
    ( _get_work_item_impl (.inr ids) client).2 = [WitCall.getWorkItemsBatch ids "omit"]
    ∧ (wis = [] → ( _get_work_item_impl (.inr ids) client).1 = "No work items found.")
    ∧ (wis ≠ [] → wis.all Option.isNone = true →
        ( _get_work_item_impl (.inr ids) client).1 = "No valid work items found with the provided IDs.")
    ∧ (wis.filterMap (fun w => w.map format_work_item) ≠ [] →
        ( _get_work_item_impl (.inr ids) client).1
          = String.intercalate "\n\n" (wis.filterMap (fun w => w.map format_work_item)))
    ∧ ("No work items found." ≠ "No valid work items found with the provided IDs.") := by
  obtain ⟨gr, br⟩ := client
  simp only at h
  subst h
  refine ⟨?_, ?_, ?_, ?_, by decide⟩
  · simp only [ _get_work_item_impl]
    split <;> first
      | rfl
      | (split <;> rfl)
  · intro hnil
    subst hnil
    rfl
  · intro hne hall
    have hfm := filterMap_format_eq_nil wis hall
    simp [ _get_work_item_impl, hne, hfm]
  · intro hfm
    have hne : wis ≠ [] := by
      intro hnil
      subst hnil
      simp at hfm
    simp [ _get_work_item_impl, hne, hfm]

/-- C9: a `query_work_items` invocation whose WIQL query yields zero
work-item references returns exactly
`"No work items found matching the query."` and issues no batch get
call: the trace is the WIQL query alone. -/
theorem c9_query_no_results (query : String) (top : Int) (client : QueryClient)
    (h : client.queryResult = .ok []) :
    ( _query_work_items_impl query top client).1 = .ok "No work items found matching the query."
    ∧ ( _query_work_items_impl query top client).2 = [WitCall.queryByWiql query top] := by
  obtain ⟨qr, br⟩ := client
  simp only at h
  subst h
  exact ⟨rfl, rfl⟩

/-- C10: for `get_work_item_comments` / `add_work_item_comment` without
a project argument, if the derivation fetch raises or the fetched work
item lacks `System.TeamProject`, both operations return exactly
`"Error retrieving work item {id} to determine project"` (the swallowed
exception is not reported) and the trace holds only the derivation
fetch — no comment-fetch and no comment-create call is issued. -/
theorem c10_comments_project_derivation (item_id : Int) (text : String) (client : CommentsClient)
    (h : (∃ e, client.workItem = .error e)
       ∨ (∃ wi, client.workItem = .ok (some wi)
            ∧ fieldsGet (wi.fields.getD []) "System.TeamProject" = none)) :
    ( _get_work_item_comments_impl item_id client none).1
      = .ok s!"Error retrieving work item {item_id} to determine project"
    ∧ ( _get_work_item_comments_impl item_id client none).2 = [WitCall.getWorkItem item_id]
    ∧ ( _add_work_item_comment_impl item_id text client none).1
      = .ok s!"Error retrieving work item {item_id} to determine project"
    ∧ ( _add_work_item_comment_impl item_id text client none).2 = [WitCall.getWorkItem item_id] := by
  have hres : resolveCommentsProject item_id none client
      = (none, [WitCall.getWorkItem item_id]) := by
    rcases h with ⟨e, he⟩ | ⟨wi, hwi, hf⟩
    · simp [resolveCommentsProject, _get_project_for_work_item, optTruthy, he]
    · cases hfs : wi.fields with
      | none =>
        simp [resolveCommentsProject, _get_project_for_work_item, optTruthy, hwi, hfs]
      | some fs =>
        cases hemp : fs.isEmpty with
        | true =>
          simp [resolveCommentsProject, _get_project_for_work_item, optTruthy, hwi, hfs, hemp]
        | false =>
          have hkey : fieldsGet fs "System.TeamProject" = none := by
            rw [hfs] at hf
            simpa using hf
          simp [resolveCommentsProject, _get_project_for_work_item, optTruthy, hwi, hfs, hemp, hkey]
  refine ⟨?_, ?_, ?_, ?_⟩ <;>
    simp [ _get_work_item_comments_impl, _add_work_item_comment_impl, hres]

/-- C8: in `get_work_item_type_field`, once the type lookup, project
capabilities (yielding a truthy process id) and the field listing
succeed, invoking the detail lookup with a non-dotted display name that
the listing resolves (case-insensitively) to a field whose reference
name is dotted (fully qualified) returns exactly the same result as
invoking it with that reference name directly; and when no field of the
type matches the non-dotted name, it returns the "field not found"
message naming the requested name, project and type. -/
theorem c8_field_lookup_resolution (project type_name D wit : String) (client : TypesClient)
    (caps : List (String × List (String × String))) (fs : List ProcessField)
    (hwit : client.workItemType = .ok (some wit))
    (hcaps : client.capabilities = .ok caps)
    (hpid : optTruthy (deriveProcessId caps) = true)
    (hD : containsDot D = false)
    (hfields : client.allFields = .ok fs) :
    (∀ f : ProcessField, fs.find? (fun g => strToLower g.name = strToLower D) = some f →
        containsDot f.reference_name = true →
        _get_work_item_type_field_impl project type_name D client
          = _get_work_item_type_field_impl project type_name f.reference_name client)
    ∧ (fs.find? (fun g => strToLower g.name = strToLower D) = none →
        _get_work_item_type_field_impl project type_name D client
          = fieldNotFoundMsg D type_name project) := by
  obtain ⟨wt, cp, af, gf⟩ := client
  simp only at hwit hcaps hfields
  subst hwit hcaps hfields
  constructor
  · intro f hfind hdot
    simp [ _get_work_item_type_field_impl, hpid, hD, hfind, hdot]
  · intro hfind
    simp [ _get_work_item_type_field_impl, hpid, hD, hfind]

/-! ## Witnesses -/

/-- Concrete created work item for the C3 witness. -/
def c3wi : WorkItem := ⟨7, some 1, some [("System.Title", PyValue.str "Child")], none, none⟩

/-- Concrete client for the C3 witness: creation succeeds, the link
update raises. -/
def c3client : CreateClient := ⟨.ok c3wi, .error "boom"⟩

/-- C3 witness at a concrete input. -/
theorem c3_create_partial_failure_witness :
    ( _create_work_item_impl [("System.Title", "Child")] "Proj" "Task" c3client (some 5) "https://org").1
      = .ok ("Work item created successfully, but failed to establish parent-child relationship: "
              ++ "boom" ++ "\n\n" ++ format_work_item c3wi)
    ∧ ( _create_work_item_impl [("System.Title", "Child")] "Proj" "Task" c3client (some 5) "https://org").2
      = [WitCall.createWorkItem ( _build_field_document [("System.Title", "Child")] "add") "Proj" "Task",
         WitCall.updateWorkItem ( _build_link_document 5 "System.LinkTypes.Hierarchy-Reverse" "https://org") c3wi.id (some "Proj")]
    ∧ strContains
        ((fun r => match r with | .ok s => s | .error s => s) ( _create_work_item_impl [("System.Title", "Child")] "Proj" "Task" c3client (some 5) "https://org").1)
        (format_work_item c3wi) = true :=
  c3_create_partial_failure [("System.Title", "Child")] "Proj" "Task" "https://org" "boom" 5 c3client c3wi rfl rfl (by decide)

/-- Concrete surviving work item for the C5 witness. -/
def c5wi : WorkItem := ⟨123, some 2, some [("System.Title", PyValue.str "A")], none, none⟩

/-- Concrete client for the C5 witness: the batch for ids `[123, 456]`
returns item 123 and a `none` for the failed id 456. -/
def c5client : ReadClient := ⟨.error "unused", .ok [some c5wi, none]⟩

/-- C5 witness at a concrete input. -/
theorem c5_get_work_item_list_witness :
    ( _get_work_item_impl (.inr [123, 456]) c5client).2 = [WitCall.getWorkItemsBatch [123, 456] "omit"]
    ∧ ([some c5wi, none] = ([] : List (Option WorkItem)) → ( _get_work_item_impl (.inr [123, 456]) c5client).1 = "No work items found.")
    ∧ ([some c5wi, none] ≠ ([] : List (Option WorkItem)) → ([some c5wi, none] : List (Option WorkItem)).all Option.isNone = true →
        ( _get_work_item_impl (.inr [123, 456]) c5client).1 = "No valid work items found with the provided IDs.")
    ∧ (([some c5wi, none] : List (Option WorkItem)).filterMap (fun w => w.map format_work_item) ≠ [] →
        ( _get_work_item_impl (.inr [123, 456]) c5client).1
          = String.intercalate "\n\n" (([some c5wi, none] : List (Option WorkItem)).filterMap (fun w => w.map format_work_item)))
    ∧ ("No work items found." ≠ "No valid work items found with the provided IDs.") :=
  c5_get_work_item_list [123, 456] c5client [some c5wi, none] rfl

/-- Concrete resolved field detail for the C8 witness. -/
def c8detail : WitFieldDetail :=
  ⟨"Priority", "Microsoft.VSTS.Common.Priority", none, some "integer", false, false, [], none⟩

/-- Concrete client for the C8 witness: one field named `Priority` with
reference name `Microsoft.VSTS.Common.Priority`. -/
def c8client : TypesClient :=
  ⟨.ok (some "My.Type"),
   .ok [("processTemplate", [("templateTypeId", "pid-1")])],
   .ok [⟨"Priority", "Microsoft.VSTS.Common.Priority"⟩],
   fun _ => .ok (some c8detail)⟩

/-- C8 witness at a concrete input. -/
theorem c8_field_lookup_resolution_witness :
    (∀ f : ProcessField, ([⟨"Priority", "Microsoft.VSTS.Common.Priority"⟩] : List ProcessField).find? (fun g => strToLower g.name = strToLower "Priority") = some f →
        containsDot f.reference_name = true →
        _get_work_item_type_field_impl "P" "Bug" "Priority" c8client
          = _get_work_item_type_field_impl "P" "Bug" f.reference_name c8client)
    ∧ (([⟨"Priority", "Microsoft.VSTS.Common.Priority"⟩] : List ProcessField).find? (fun g => strToLower g.name = strToLower "Priority") = none →
        _get_work_item_type_field_impl "P" "Bug" "Priority" c8client
          = fieldNotFoundMsg "Priority" "Bug" "P") :=
  c8_field_lookup_resolution "P" "Bug" "Priority" "My.Type" c8client
    [("processTemplate", [("templateTypeId", "pid-1")])]
    [⟨"Priority", "Microsoft.VSTS.Common.Priority"⟩]
    rfl rfl (by decide) (by decide) rfl

/-- Concrete client for the C9 witness: the WIQL query returns zero
references. -/
def c9client : QueryClient := ⟨.ok [], .error "unused"⟩

/-- C9 witness at a concrete input. -/
theorem c9_query_no_results_witness :
    ( _query_work_items_impl "SELECT [System.Id] FROM workitems" 30 c9client).1
      = .ok "No work items found matching the query."
    ∧ ( _query_work_items_impl "SELECT [System.Id] FROM workitems" 30 c9client).2
      = [WitCall.queryByWiql "SELECT [System.Id] FROM workitems" 30] :=
  c9_query_no_results "SELECT [System.Id] FROM workitems" 30 c9client rfl

/-- Concrete client for the C10 witness: the derivation fetch raises. -/
def c10client : CommentsClient := ⟨.error "boom", .error "unused", .error "unused"⟩

/-- C10 witness at a concrete input. -/
theorem c10_comments_project_derivation_witness :
    ( _get_work_item_comments_impl 42 c10client none).1
      = .ok s!"Error retrieving work item {(42 : Int)} to determine project"
    ∧ ( _get_work_item_comments_impl 42 c10client none).2 = [WitCall.getWorkItem 42]
    ∧ ( _add_work_item_comment_impl 42 "hello" c10client none).1
      = .ok s!"Error retrieving work item {(42 : Int)} to determine project"
    ∧ ( _add_work_item_comment_impl 42 "hello" c10client none).2 = [WitCall.getWorkItem 42] :=
  c10_comments_project_derivation 42 "hello" c10client (Or.inl ⟨"boom", rfl⟩)
